import Mathlib

/-!
Verification development for the Workspace-Manager repository
(src/workspace_manager.py and src/chrome_flow.py).

The Python code is a linear sequence of shell-outs to the macOS
scripting interpreter (osascript), wrapped in print statements and
fixed sleeps.  We embed it shallowly:

* every AppleScript text the Python code generates is represented by a
  constructor of the inductive type `Script` (the generator functions
  get_applescript_list_running_apps, get_applescript_check_app_exists,
  get_applescript_maximize_window, and the inline quit / activate
  one-liners each produce exactly one script shape, parametrised by an
  application or process name);
* the operating system is an oracle `Osa : Script -> Except String String`
  giving, for each invocation, either the captured stdout (exit status 0)
  or the captured stderr (non-zero exit, which subprocess.run with
  check=True raises as CalledProcessError);
* every observable side effect (print, log line, script invocation,
  sleep, process exit) is an `Event`; each Python function is translated
  to a Lean function returning the list of events it emits, in order,
  together with its return value.

Python string operations used by the code (str.strip, str.split with a
one-character separator, and the substring test of the in operator)
are given executable char-list implementations `pyStrip`, `pySplit`,
`pyContains` that mirror Python semantics on the ASCII data the
program handles; Python truthiness of an optional string (None or
empty is falsy) is written out as the corresponding match and
emptiness test at each use site.
-/

/-- The distinct AppleScript texts generated by workspace_manager.py.
Each constructor corresponds to one generator site in the source:
listRunningApps to get_applescript_list_running_apps (line 54),
checkAppExists to get_applescript_check_app_exists (line 59),
maximizeWin to get_applescript_maximize_window (line 79),
quitApp to the f-string at line 175, activateApp to the f-string at
line 229. -/
inductive Script where
  | listRunningApps : Script
  | checkAppExists (appName : String) : Script
  | maximizeWin (processName : String) : Script
  | quitApp (appName : String) : Script
  | activateApp (appName : String) : Script
  deriving DecidableEq, Repr

/-- Observable side effects of the Python code, in program order:
printLine for print(...), logInfo / logSuccess / logError for the three
log helpers at lines 16-28 (which print the message with a two-space,
check-mark or cross prefix), runScript for one osascript subprocess
invocation, sleepMs for time.sleep (milliseconds), exitCode for
sys.exit. -/
inductive Event where
  | printLine (s : String) : Event
  | logInfo (s : String) : Event
  | logSuccess (s : String) : Event
  | logError (s : String) : Event
  | runScript (s : Script) : Event
  | sleepMs (ms : Nat) : Event
  | exitCode (n : Nat) : Event
  deriving DecidableEq, Repr

/-- The operating-system oracle: the outcome of each osascript
invocation.  Except.ok is the raw captured stdout of a zero-exit run;
Except.error is the captured stderr of a non-zero exit. -/
def Osa : Type := Script → Except String String

/-- Python str.strip() on the ASCII data this program handles: drop
leading and trailing whitespace characters. -/
def pyStrip (s : String) : String :=
  List.asString (((s.data.dropWhile Char.isWhitespace).reverse.dropWhile
    Char.isWhitespace).reverse)

/-- Python str.split(sep) for a one-character separator, on char lists:
splitting the empty string gives one empty field, and consecutive
separators give empty fields, exactly as in Python. -/
def pySplitList (c : Char) : List Char → List (List Char)
  | [] => [[]]
  | x :: xs =>
    match pySplitList c xs with
    | [] => [[]]
    | y :: ys => if x = c then [] :: y :: ys else (x :: y) :: ys

/-- Python str.split(sep) for a one-character separator, on strings. -/
def pySplit (c : Char) (s : String) : List String :=
  (pySplitList c s.data).map List.asString

/-- Python substring membership pat in s (over char lists). -/
def pyContainsList (pat : List Char) : List Char → Bool
  | [] => pat.isEmpty
  | x :: xs => List.isPrefixOf pat (x :: xs) || pyContainsList pat xs

/-- Python substring membership pat in s. -/
def pyContains (s pat : String) : Bool :=
  pyContainsList pat.data s.data

/-- Configuration constant EXCLUDED_APPS (workspace_manager.py line 12);
Python uses a set, of which only membership is ever consulted, so a
list of its elements suffices. -/
def EXCLUDED_APPS : List String :=
  ["Terminal", "iTerm2", "iTerm", "Finder", "SystemUIServer"]

/-- Configuration constant COUNTDOWN_SECONDS (workspace_manager.py
line 13). -/
def COUNTDOWN_SECONDS : Nat := 3

/-- run_applescript (lines 31-51): invoke osascript on the script; on
exit 0 return the stripped stdout, on non-zero exit (CalledProcessError)
log the stderr and return None.  The returned event list is the trace
of the call. -/
def run_applescript (osa : Osa) (script : Script) : Option String × List Event :=
  match osa script with
  | Except.ok out => (some (pyStrip out), [Event.runScript script])
  | Except.error e =>
      (none, [Event.runScript script, Event.logError ("AppleScript error: " ++ e)])

/-- get_running_gui_apps (lines 125-137): run the enumeration script;
if the result is truthy (not None and not empty after stripping), split
on commas and strip each token; otherwise return the empty list. -/
def get_running_gui_apps (osa : Osa) : List String × List Event :=
  let r := run_applescript osa Script.listRunningApps
  match r.1 with
  | some out => if out = "" then ([], r.2) else ((pySplit ',' out).map pyStrip, r.2)
  | none => ([], r.2)

/-- Python range(n, 0, -1): the tick values n, n-1, ..., 1 of the
countdown loop at line 165. -/
def countdownTicks : Nat → List Nat
  | 0 => []
  | n + 1 => (n + 1) :: countdownTicks n

/-- The countdown loop at lines 165-167: for each tick value print
"i..." then sleep one second.  A KeyboardInterrupt may fire during any
of the sleeps; interrupt = some t means it fires during the sleep of
the tick with zero-based index t (t counts from the argument start).
The Bool result records whether the loop was interrupted; on interrupt
the print of the current tick has already happened and the loop stops. -/
def countdownLoop (interrupt : Option Nat) : List Nat → Nat → List Event × Bool
  | [], _ => ([], false)
  | i :: rest, t =>
    if interrupt = some t then
      ([Event.printLine (toString i ++ "...")], true)
    else
      let r := countdownLoop interrupt rest (t + 1)
      (Event.printLine (toString i ++ "...") :: Event.sleepMs 1000 :: r.1, r.2)

/-- The quit loop at lines 172-180 of close_all_gui_apps: for each
application issue the quit script, log "Closed app" and sleep 0.2 s.
In the source the body sits in a try/except, but run_applescript
already catches the only exception a failing osascript raises
(CalledProcessError), so the except branch is unreachable and the
success log line is printed even when the quit script failed. -/
def quitLoop (osa : Osa) : List String → List Event
  | [] => []
  | app :: rest =>
    (run_applescript osa (Script.quitApp app)).2
      ++ [Event.logSuccess ("Closed " ++ app), Event.sleepMs 200]
      ++ quitLoop osa rest

/-- close_all_gui_apps (lines 140-183).  excluded_apps = none models
the Python default argument None, replaced by EXCLUDED_APPS.  interrupt
models a user KeyboardInterrupt during the countdown sleeps (the only
place the source catches it); the Bool result is true when the process
terminated via sys.exit(0) on that interrupt. -/
def close_all_gui_apps (osa : Osa) (interrupt : Option Nat)
    (excluded_apps : Option (List String)) : List Event × Bool :=
  let excluded := excluded_apps.getD EXCLUDED_APPS
  let g := get_running_gui_apps osa
  let apps_to_close := g.1.filter (fun a => !excluded.contains a)
  let pre := Event.printLine "Getting list of running GUI applications..." :: g.2
  if apps_to_close.isEmpty then
    (pre ++ [Event.printLine "No GUI applications to close."], false)
  else
    let header :=
      Event.printLine ("\nFound " ++ toString apps_to_close.length
          ++ " applications to close:")
        :: apps_to_close.map (fun a => Event.logInfo ("- " ++ a))
        ++ [Event.printLine ("\nStarting countdown: " ++ toString COUNTDOWN_SECONDS
              ++ " seconds to cancel (Ctrl+C)...")]
    let cd := countdownLoop interrupt (countdownTicks COUNTDOWN_SECONDS) 0
    if cd.2 then
      (pre ++ header ++ cd.1
        ++ [Event.printLine "\n\nCancelled by user.", Event.exitCode 0], true)
    else
      (pre ++ header ++ cd.1
        ++ [Event.printLine "\nClosing applications..."]
        ++ quitLoop osa apps_to_close
        ++ [Event.sleepMs 1000, Event.printLine "\nAll applications closed."], false)

/-- maximize_window (lines 186-198): default the process name to the
application name, generate the maximize script for it and run it,
ignoring the result. -/
def maximize_window (osa : Osa) (app_name : String)
    (process_name : Option String) : List Event :=
  (run_applescript osa (Script.maximizeWin (process_name.getD app_name))).2

/-- The check loop at lines 213-221 of open_and_maximize_apps: for each
(app, process) pair run the existence-check script; the pair is added
to installed_apps exactly when the Python test result and "found" in
result holds, i.e. the returned text is truthy and contains "found" as
a substring (note that the text "not found" contains "found").  Returns
the installed list and the trace. -/
def checkLoop (osa : Osa) :
    List (String × String) → List (String × String) × List Event
  | [] => ([], [])
  | (app, proc) :: rest =>
    let r := run_applescript osa (Script.checkAppExists app)
    let found :=
      match r.1 with
      | some s => if s = "" then false else pyContains s "found"
      | none => false
    let k := checkLoop osa rest
    if found then
      ((app, proc) :: k.1,
        r.2 ++ [Event.logSuccess (app ++ " found")] ++ k.2)
    else
      (k.1, r.2 ++ [Event.logError (app ++ " not found (skipping)")] ++ k.2)

/-- The open loop at lines 225-240 of open_and_maximize_apps: for each
installed pair print, activate, sleep 2 s, print, maximize, log
success, sleep 0.5 s.  As in quitLoop the try/except around the body
is unreachable because run_applescript catches the only exception. -/
def openLoop (osa : Osa) : List (String × String) → List Event
  | [] => []
  | (app, proc) :: rest =>
    Event.printLine ("\n  Opening " ++ app ++ "...")
      :: (run_applescript osa (Script.activateApp app)).2
      ++ [Event.sleepMs 2000, Event.printLine ("  Maximizing " ++ app ++ "...")]
      ++ maximize_window osa app (some proc)
      ++ [Event.logSuccess (app ++ " ready"), Event.sleepMs 500]
      ++ openLoop osa rest

/-- open_and_maximize_apps (lines 201-242): first the check phase over
every spec in input order, computing installed_apps, then the open
phase over the installed subset. -/
def open_and_maximize_apps (osa : Osa)
    (apps_to_open : List (String × String)) : List Event :=
  let c := checkLoop osa apps_to_open
  Event.printLine "\nChecking installed applications..."
    :: c.2
    ++ [Event.printLine "\nOpening and maximizing applications..."]
    ++ openLoop osa c.1
    ++ [Event.printLine "\n✓ Workflow complete! All applications opened and maximized."]

/-- One possible state of the window-manager world seen by the
generated maximize AppleScript (lines 89-122): whether the named
process exists (the tell process block errors otherwise, uncaught),
whether its window 1 exists, and whether each of the three
maximization operations (set AXFullScreen, reposition and resize to
the screen bounds, set AXZoomButton) succeeds when attempted. -/
structure WinEnv where
  processExists : Bool
  windowExists : Bool
  fullscreenOk : Bool
  boundsOk : Bool
  zoomOk : Bool
  deriving DecidableEq, Repr

/-- The three maximization strategies of the generated script, in
source order. -/
inductive Strategy where
  | fullscreen : Strategy
  | boundsResize : Strategy
  | zoom : Strategy
  deriving DecidableEq, Repr

/-- Semantics of the maximize AppleScript of
get_applescript_maximize_window (lines 89-122) in state env: the list
of strategies attempted, in order, and whether the script as a whole
exits non-zero.  Faithful to the nested try blocks of the source: the
inner try attempts AXFullScreen and on error the bounds resize; an
error of the bounds resize escapes to the outer handler, which
attempts the zoom inside its own try, whose failure is swallowed; if
window 1 does not exist nothing is attempted; if the process does not
exist the script errors before any try block. -/
def maximizeScriptRun (env : WinEnv) : List Strategy × Bool :=
  if !env.processExists then ([], true)
  else if !env.windowExists then ([], false)
  else if env.fullscreenOk then ([Strategy.fullscreen], false)
  else if env.boundsOk then ([Strategy.fullscreen, Strategy.boundsResize], false)
  else ([Strategy.fullscreen, Strategy.boundsResize, Strategy.zoom], false)

/-- An oracle whose answer to a maximize script is determined by the
window-manager state env (other scripts succeed with empty output). -/
def osaOfWinEnv (env : WinEnv) : Osa := fun s =>
  match s with
  | Script.maximizeWin _ =>
      if (maximizeScriptRun env).2 then Except.error "maximize script failed"
      else Except.ok ""
  | _ => Except.ok ""

/-- The application name of a quit-script invocation event, if the
event is one. -/
def quitName : Event → Option String
  | Event.runScript (Script.quitApp a) => some a
  | _ => none

/-- The application name of an activate-script invocation event, if the
event is one. -/
def activateName : Event → Option String
  | Event.runScript (Script.activateApp a) => some a
  | _ => none

/-- The process name of a maximize-script invocation event, if the
event is one. -/
def maximizeName : Event → Option String
  | Event.runScript (Script.maximizeWin p) => some p
  | _ => none

/-- The application name of an existence-check-script invocation event,
if the event is one. -/
def checkName : Event → Option String
  | Event.runScript (Script.checkAppExists a) => some a
  | _ => none

/-- The application names for which a quit script was invoked, in trace
order. -/
def quitRequests (evs : List Event) : List String := evs.filterMap quitName

/-- The application names for which an activate script was invoked, in
trace order. -/
def activateRequests (evs : List Event) : List String := evs.filterMap activateName

/-- The process names for which a maximize script was invoked, in trace
order. -/
def maximizeRequests (evs : List Event) : List String := evs.filterMap maximizeName

/-- The application names for which an existence-check script was
invoked, in trace order. -/
def checkRequests (evs : List Event) : List String := evs.filterMap checkName

/-- An oracle on which the enumeration script reports three running
applications; every other script succeeds with empty output. -/
def osaChromeNotes : Osa := fun s =>
  match s with
  | Script.listRunningApps => Except.ok "Chrome, Terminal, Notes"
  | _ => Except.ok ""

/-- An oracle on which every existence-check script prints the text
"not found" (the branch the generated check script takes for an
application that is not installed); every other script succeeds with
empty output. -/
def osaCheckNotFound : Osa := fun s =>
  match s with
  | Script.checkAppExists _ => Except.ok "not found"
  | _ => Except.ok ""

/-- An oracle on which two applications are running and the quit script
for Alpha exits non-zero; every other script succeeds. -/
def osaQuitAlphaFails : Osa := fun s =>
  match s with
  | Script.listRunningApps => Except.ok "Alpha, Beta"
  | Script.quitApp "Alpha" => Except.error "quit refused"
  | _ => Except.ok ""

/-- An oracle on which every script succeeds with empty output, so the
enumeration yields no running applications. -/
def osaListEmpty : Osa := fun _ => Except.ok ""

/-- An oracle on which every script exits non-zero. -/
def osaListFail : Osa := fun _ => Except.error "System Events error"

/-- An oracle on which the enumeration script prints a single
application name that contains a comma. -/
def osaCommaName : Osa := fun _ => Except.ok "Adobe Photoshop, Version 2024"

example : pySplit ',' "a, b,c" = ["a", " b", "c"] := by decide
example : pyStrip "  x y " = "x y" := by decide
example : pyContains "not found" "found" = true := by decide

/-- The trace of one run_applescript call starts with the invocation
event and, on a non-zero exit, is followed only by the error log. -/
theorem run_applescript_ok (osa : Osa) (s : Script) (out : String)
    (h : osa s = Except.ok out) :
    run_applescript osa s = (some (pyStrip out), [Event.runScript s]) := by
  simp [run_applescript, h]

/-- On a non-zero exit, run_applescript returns none and its trace is
the invocation event followed by the error log line. -/
theorem run_applescript_err (osa : Osa) (s : Script) (e : String)
    (h : osa s = Except.error e) :
    run_applescript osa s
      = (none, [Event.runScript s, Event.logError ("AppleScript error: " ++ e)]) := by
  simp [run_applescript, h]

/-- The enumeration step issues no quit-script invocation. -/
theorem filterMap_quitName_get_running (osa : Osa) :
    List.filterMap quitName (get_running_gui_apps osa).2 = [] := by
  unfold get_running_gui_apps
  cases h : osa Script.listRunningApps with
  | ok out =>
      simp only [run_applescript, h]
      split <;> simp [quitName]
  | error e => simp [run_applescript, h, quitName]

/-- The quit loop issues exactly one quit request per application in
its argument list, in order, regardless of how the oracle answers. -/
theorem filterMap_quitName_quitLoop (osa : Osa) (l : List String) :
    List.filterMap quitName (quitLoop osa l) = l := by
  induction l with
  | nil => rfl
  | cons a rest ih =>
    cases h : osa (Script.quitApp a) <;>
      simp [quitLoop, run_applescript, h, quitName, ih]

/-- The countdown loop issues no quit request, whether or not it is
interrupted. -/
theorem filterMap_quitName_countdownLoop (interrupt : Option Nat) (l : List Nat) (t : Nat) :
    List.filterMap quitName (countdownLoop interrupt l t).1 = [] := by
  induction l generalizing t with
  | nil => rfl
  | cons i rest ih =>
    unfold countdownLoop
    by_cases h : interrupt = some t
    · rw [if_pos h]; rfl
    · rw [if_neg h]
      simp [quitName, ih (t + 1)]

/-- Without a user interrupt the countdown loop runs to completion. -/
theorem countdownLoop_none_completes (l : List Nat) (t : Nat) :
    (countdownLoop none l t).2 = false := by
  induction l generalizing t with
  | nil => rfl
  | cons i rest ih => simp [countdownLoop, ih]

/-- An interrupt during one of the three default countdown sleeps stops
the countdown. -/
theorem countdownLoop_interrupted (k : Nat) (hk : k < COUNTDOWN_SECONDS) :
    (countdownLoop (some k) (countdownTicks COUNTDOWN_SECONDS) 0).2 = true := by
  have h3 : k = 0 ∨ k = 1 ∨ k = 2 := by
    simp [COUNTDOWN_SECONDS] at hk
    omega
  rcases h3 with h | h | h <;> subst h <;> decide

/-- The banner and per-application info lines before the countdown
issue no quit request. -/
theorem filterMap_quitName_logInfo_map (l : List String) :
    List.filterMap quitName (l.map fun a => Event.logInfo ("- " ++ a)) = [] := by
  rw [List.filterMap_eq_nil_iff]
  intro e he
  obtain ⟨a, _, rfl⟩ := List.mem_map.mp he
  rfl

/-- In a run without a user interrupt, close_all_gui_apps issues quit
requests exactly for the enumerated applications that are not in the
excluded set, in enumeration order. -/
theorem close_all_quitRequests (osa : Osa) (excludedOpt : Option (List String)) :
    quitRequests (close_all_gui_apps osa none excludedOpt).1
      = (get_running_gui_apps osa).1.filter
          (fun a => !(excludedOpt.getD EXCLUDED_APPS).contains a) := by
  unfold quitRequests
  simp only [close_all_gui_apps]
  split
  case isTrue h =>
    rw [List.isEmpty_iff] at h
    rw [h]
    simp [quitName, filterMap_quitName_get_running osa]
  case isFalse h =>
    rw [if_neg (by simp [countdownLoop_none_completes])]
    simp [quitName, filterMap_quitName_get_running osa,
      filterMap_quitName_countdownLoop none (countdownTicks COUNTDOWN_SECONDS) 0,
      filterMap_quitName_logInfo_map, filterMap_quitName_quitLoop]

/-- Whatever the oracle answers, the quit loop logs each application's
outcome in its own iteration: the AppleScript error line when the quit
script failed, and the Closed line when it succeeded (the source in
fact prints the Closed line unconditionally, which only strengthens the
success case). -/
theorem quitLoop_mem_logs (osa : Osa) (l : List String) (a : String) (ha : a ∈ l) :
    (∀ e, osa (Script.quitApp a) = Except.error e →
      Event.logError ("AppleScript error: " ++ e) ∈ quitLoop osa l)
    ∧ (∀ out, osa (Script.quitApp a) = Except.ok out →
      Event.logSuccess ("Closed " ++ a) ∈ quitLoop osa l) := by
  induction l with
  | nil => cases ha
  | cons b rest ih =>
    rcases List.mem_cons.mp ha with rfl | hmem
    · constructor
      · intro e he
        simp [quitLoop, run_applescript, he]
      · intro out ho
        simp [quitLoop, run_applescript, ho]
    · constructor
      · intro e he
        exact List.mem_append_right _ ((ih hmem).1 e he)
      · intro out ho
        exact List.mem_append_right _ ((ih hmem).2 out ho)

/-- The check phase issues exactly one existence-check script per input
spec, in input order, whatever the oracle answers. -/
theorem checkLoop_checkRequests (osa : Osa) (l : List (String × String)) :
    List.filterMap checkName (checkLoop osa l).2 = l.map Prod.fst := by
  induction l with
  | nil => rfl
  | cons p rest ih =>
    obtain ⟨app, proc⟩ := p
    cases h : osa (Script.checkAppExists app) with
    | ok out =>
        by_cases h1 : pyStrip out = ""
        · simp [checkLoop, run_applescript, h, h1, checkName, ih]
        · by_cases h2 : pyContains (pyStrip out) "found" = true
          · simp [checkLoop, run_applescript, h, h1, h2, checkName, ih]
          · simp [checkLoop, run_applescript, h, h1, h2, checkName, ih]
    | error e => simp [checkLoop, run_applescript, h, checkName, ih]

/-- The check phase issues no activate script. -/
theorem filterMap_activateName_checkLoop (osa : Osa) (l : List (String × String)) :
    List.filterMap activateName (checkLoop osa l).2 = [] := by
  induction l with
  | nil => rfl
  | cons p rest ih =>
    obtain ⟨app, proc⟩ := p
    cases h : osa (Script.checkAppExists app) with
    | ok out =>
        by_cases h1 : pyStrip out = ""
        · simp [checkLoop, run_applescript, h, h1, activateName, ih]
        · by_cases h2 : pyContains (pyStrip out) "found" = true
          · simp [checkLoop, run_applescript, h, h1, h2, activateName, ih]
          · simp [checkLoop, run_applescript, h, h1, h2, activateName, ih]
    | error e => simp [checkLoop, run_applescript, h, activateName, ih]

/-- The check phase issues no maximize script. -/
theorem filterMap_maximizeName_checkLoop (osa : Osa) (l : List (String × String)) :
    List.filterMap maximizeName (checkLoop osa l).2 = [] := by
  induction l with
  | nil => rfl
  | cons p rest ih =>
    obtain ⟨app, proc⟩ := p
    cases h : osa (Script.checkAppExists app) with
    | ok out =>
        by_cases h1 : pyStrip out = ""
        · simp [checkLoop, run_applescript, h, h1, maximizeName, ih]
        · by_cases h2 : pyContains (pyStrip out) "found" = true
          · simp [checkLoop, run_applescript, h, h1, h2, maximizeName, ih]
          · simp [checkLoop, run_applescript, h, h1, h2, maximizeName, ih]
    | error e => simp [checkLoop, run_applescript, h, maximizeName, ih]

/-- The open phase issues no existence-check script. -/
theorem filterMap_checkName_openLoop (osa : Osa) (l : List (String × String)) :
    List.filterMap checkName (openLoop osa l) = [] := by
  induction l with
  | nil => rfl
  | cons p rest ih =>
    obtain ⟨app, proc⟩ := p
    cases h1 : osa (Script.activateApp app) <;>
      cases h2 : osa (Script.maximizeWin proc) <;>
        simp [openLoop, run_applescript, maximize_window, h1, h2, checkName, ih]

/-- C2: for every enumerated running-application list and every
excluded set, close_all_gui_apps (run without a user interrupt) issues
quit requests for exactly the enumerated names not in the excluded
set, in enumeration order, and never issues a quit request for an
excluded name. -/
theorem close_all_quits_exactly_running_minus_excluded (osa : Osa)
    (excludedOpt : Option (List String)) :
    quitRequests (close_all_gui_apps osa none excludedOpt).1
      = (get_running_gui_apps osa).1.filter
          (fun a => !(excludedOpt.getD EXCLUDED_APPS).contains a)
    ∧ ∀ a ∈ quitRequests (close_all_gui_apps osa none excludedOpt).1,
        (excludedOpt.getD EXCLUDED_APPS).contains a = false := by
  refine ⟨close_all_quitRequests osa excludedOpt, ?_⟩
  intro a ha
  rw [close_all_quitRequests osa excludedOpt] at ha
  have h := (List.mem_filter.mp ha).2
  simpa using h

/-- Witness for C2 on a concrete oracle: three running applications,
Terminal excluded, quit requests exactly for Chrome and Notes in that
order, and Terminal is never the subject of a quit request. -/
theorem close_all_quits_exactly_running_minus_excluded_witness :
    quitRequests (close_all_gui_apps osaChromeNotes none (some ["Terminal"])).1
      = ["Chrome", "Notes"]
    ∧ (["Terminal"] : List String).contains "Chrome" = false := by
  have h := close_all_quits_exactly_running_minus_excluded osaChromeNotes (some ["Terminal"])
  refine ⟨?_, ?_⟩
  · rw [h.1]; decide
  · refine h.2 "Chrome" ?_
    rw [h.1]; decide

/-- C3: every application in the quit list receives a quit request, no
matter how the oracle answers for earlier applications, and each
application's own iteration logs its outcome: the AppleScript error
line when its quit script failed, the Closed line when it succeeded. -/
theorem close_all_per_app_quit_logging (osa : Osa)
    (excludedOpt : Option (List String)) :
    ∀ a ∈ (get_running_gui_apps osa).1.filter
        (fun x => !(excludedOpt.getD EXCLUDED_APPS).contains x),
      a ∈ quitRequests (close_all_gui_apps osa none excludedOpt).1
      ∧ (∀ e, osa (Script.quitApp a) = Except.error e →
          Event.logError ("AppleScript error: " ++ e)
            ∈ (close_all_gui_apps osa none excludedOpt).1)
      ∧ (∀ out, osa (Script.quitApp a) = Except.ok out →
          Event.logSuccess ("Closed " ++ a)
            ∈ (close_all_gui_apps osa none excludedOpt).1) := by
  intro a ha
  have hne : (get_running_gui_apps osa).1.filter
      (fun x => !(excludedOpt.getD EXCLUDED_APPS).contains x) ≠ [] :=
    List.ne_nil_of_mem ha
  refine ⟨?_, ?_, ?_⟩
  · rw [close_all_quitRequests osa excludedOpt]; exact ha
  · intro e he
    have hmem := (quitLoop_mem_logs osa _ a ha).1 e he
    simp only [close_all_gui_apps]
    rw [if_neg (by simpa [List.isEmpty_iff] using hne),
      if_neg (by simp [countdownLoop_none_completes])]
    simp only [List.mem_append, List.mem_cons]
    tauto
  · intro out ho
    have hmem := (quitLoop_mem_logs osa _ a ha).2 out ho
    simp only [close_all_gui_apps]
    rw [if_neg (by simpa [List.isEmpty_iff] using hne),
      if_neg (by simp [countdownLoop_none_completes])]
    simp only [List.mem_append, List.mem_cons]
    tauto

/-- Witness for C3 on a concrete oracle: Alpha's quit script fails,
its error is logged, and Beta still receives its quit request and its
success log. -/
theorem close_all_per_app_quit_logging_witness :
    "Beta" ∈ quitRequests (close_all_gui_apps osaQuitAlphaFails none (some [])).1
    ∧ Event.logError "AppleScript error: quit refused"
        ∈ (close_all_gui_apps osaQuitAlphaFails none (some [])).1
    ∧ Event.logSuccess "Closed Beta"
        ∈ (close_all_gui_apps osaQuitAlphaFails none (some [])).1 := by
  have hA := close_all_per_app_quit_logging osaQuitAlphaFails (some []) "Alpha" (by decide)
  have hB := close_all_per_app_quit_logging osaQuitAlphaFails (some []) "Beta" (by decide)
  exact ⟨hB.1, hA.2.1 "quit refused" rfl, hB.2.2 "" rfl⟩

/-- C4: a user interrupt during one of the countdown sleeps (which can
only happen when the quit list is non-empty, since otherwise no
countdown runs) makes close_all_gui_apps issue zero quit requests and
terminate the process via sys.exit(0). -/
theorem close_all_interrupt_no_quits (osa : Osa)
    (excludedOpt : Option (List String)) (k : Nat)
    (hk : k < COUNTDOWN_SECONDS)
    (hne : (get_running_gui_apps osa).1.filter
        (fun a => !(excludedOpt.getD EXCLUDED_APPS).contains a) ≠ []) :
    quitRequests (close_all_gui_apps osa (some k) excludedOpt).1 = []
    ∧ (close_all_gui_apps osa (some k) excludedOpt).2 = true
    ∧ Event.exitCode 0 ∈ (close_all_gui_apps osa (some k) excludedOpt).1 := by
  have hcd := countdownLoop_interrupted k hk
  unfold quitRequests
  simp only [close_all_gui_apps]
  rw [if_neg (by simpa [List.isEmpty_iff] using hne), if_pos hcd]
  refine ⟨?_, rfl, ?_⟩
  · simp [quitName, filterMap_quitName_get_running osa,
      filterMap_quitName_countdownLoop (some k) (countdownTicks COUNTDOWN_SECONDS) 0,
      filterMap_quitName_logInfo_map]
  · simp

/-- Witness for C4 on a concrete oracle: interrupt during the second
countdown sleep, with Chrome and Notes in the quit list. -/
theorem close_all_interrupt_no_quits_witness :
    quitRequests (close_all_gui_apps osaChromeNotes (some 1) (some ["Terminal"])).1 = []
    ∧ (close_all_gui_apps osaChromeNotes (some 1) (some ["Terminal"])).2 = true
    ∧ Event.exitCode 0
        ∈ (close_all_gui_apps osaChromeNotes (some 1) (some ["Terminal"])).1 :=
  close_all_interrupt_no_quits osaChromeNotes (some ["Terminal"]) 1 (by decide) (by decide)

/-- C6: when every enumerated application is excluded, the close step
logs the no-op message and returns normally: its whole trace is the
initial banner, the enumeration call, and the no-op message, so no
countdown line, no sleep and no quit request occur and the process is
not terminated. -/
theorem close_all_noop_when_nothing_to_close (osa : Osa)
    (excludedOpt : Option (List String))
    (h : (get_running_gui_apps osa).1.filter
        (fun a => !(excludedOpt.getD EXCLUDED_APPS).contains a) = []) :
    close_all_gui_apps osa none excludedOpt
      = (Event.printLine "Getting list of running GUI applications..."
            :: (get_running_gui_apps osa).2
            ++ [Event.printLine "No GUI applications to close."], false)
    ∧ quitRequests (close_all_gui_apps osa none excludedOpt).1 = []
    ∧ Event.printLine "No GUI applications to close."
        ∈ (close_all_gui_apps osa none excludedOpt).1 := by
  have htr : close_all_gui_apps osa none excludedOpt
      = (Event.printLine "Getting list of running GUI applications..."
            :: (get_running_gui_apps osa).2
            ++ [Event.printLine "No GUI applications to close."], false) := by
    simp only [close_all_gui_apps, h]
    simp
  refine ⟨htr, ?_, ?_⟩
  · rw [close_all_quitRequests osa excludedOpt, h]
  · rw [htr]; simp

/-- Witness for C6 on a concrete oracle: the enumeration returns empty
output, so nothing is there to close and the default excluded set is
used. -/
theorem close_all_noop_when_nothing_to_close_witness :
    close_all_gui_apps osaListEmpty none none
      = (Event.printLine "Getting list of running GUI applications..."
            :: (get_running_gui_apps osaListEmpty).2
            ++ [Event.printLine "No GUI applications to close."], false)
    ∧ quitRequests (close_all_gui_apps osaListEmpty none none).1 = []
    ∧ Event.printLine "No GUI applications to close."
        ∈ (close_all_gui_apps osaListEmpty none none).1 :=
  close_all_noop_when_nothing_to_close osaListEmpty none (by decide)

/-- C7: when the enumeration script exits non-zero,
get_running_gui_apps returns the empty list and its trace is the
invocation followed by the logged error line; being a total function of
the oracle, it propagates no exception to its caller. -/
theorem get_running_fail_returns_empty (osa : Osa) (e : String)
    (h : osa Script.listRunningApps = Except.error e) :
    get_running_gui_apps osa
      = ([], [Event.runScript Script.listRunningApps,
          Event.logError ("AppleScript error: " ++ e)]) := by
  simp [get_running_gui_apps, run_applescript, h]

/-- Witness for C7 on a concrete oracle whose every script exits
non-zero. -/
theorem get_running_fail_returns_empty_witness :
    get_running_gui_apps osaListFail
      = ([], [Event.runScript Script.listRunningApps,
          Event.logError "AppleScript error: System Events error"]) :=
  get_running_fail_returns_empty osaListFail "System Events error" rfl

/-- C5: when the target process and its window exist, the generated
maximize script attempts the fullscreen attribute, the resize to the
screen bounds, and the zoom control, in that fixed order, each
fallback only after the previous one errored and stopping at the first
success; and when all three fail, the script still exits zero, so
maximize_window returns normally and its whole trace is the single
invocation event, with no log line for the exhaustion. -/
theorem maximize_fallback_chain (env : WinEnv)
    (hp : env.processExists = true) (hw : env.windowExists = true) :
    (env.fullscreenOk = true →
      maximizeScriptRun env = ([Strategy.fullscreen], false))
    ∧ (env.fullscreenOk = false → env.boundsOk = true →
      maximizeScriptRun env = ([Strategy.fullscreen, Strategy.boundsResize], false))
    ∧ (env.fullscreenOk = false → env.boundsOk = false → env.zoomOk = false →
      maximizeScriptRun env
          = ([Strategy.fullscreen, Strategy.boundsResize, Strategy.zoom], false)
        ∧ ∀ app procOpt,
            maximize_window (osaOfWinEnv env) app procOpt
              = [Event.runScript (Script.maximizeWin (procOpt.getD app))]) := by
  refine ⟨?_, ?_, ?_⟩
  · intro hf
    simp [maximizeScriptRun, hp, hw, hf]
  · intro hf hb
    simp [maximizeScriptRun, hp, hw, hf, hb]
  · intro hf hb hz
    have hrun : maximizeScriptRun env
        = ([Strategy.fullscreen, Strategy.boundsResize, Strategy.zoom], false) := by
      simp [maximizeScriptRun, hp, hw, hf, hb]
    refine ⟨hrun, ?_⟩
    intro app procOpt
    simp [maximize_window, run_applescript, osaOfWinEnv, hrun]

/-- Witness for C5 at the state where the process and window exist and
all three maximization operations fail. -/
theorem maximize_fallback_chain_witness :
    maximizeScriptRun (WinEnv.mk true true false false false)
        = ([Strategy.fullscreen, Strategy.boundsResize, Strategy.zoom], false)
    ∧ maximize_window (osaOfWinEnv (WinEnv.mk true true false false false))
        "Google Chrome" none
        = [Event.runScript (Script.maximizeWin "Google Chrome")] := by
  have h := (maximize_fallback_chain (WinEnv.mk true true false false false)
    rfl rfl).2.2 rfl rfl rfl
  exact ⟨h.1, h.2 "Google Chrome" none⟩

/-- C9: open_and_maximize_apps runs in two phases.  Its whole trace is
the check-phase trace followed by the open-phase trace over the
computed installed subset; the check phase performs one existence
check per spec in input order and issues no activate and no maximize
script, and the open phase issues no existence check, so no activation
precedes any existence check. -/
theorem open_and_maximize_two_phases (osa : Osa)
    (specs : List (String × String)) :
    open_and_maximize_apps osa specs
      = Event.printLine "\nChecking installed applications..."
          :: (checkLoop osa specs).2
          ++ [Event.printLine "\nOpening and maximizing applications..."]
          ++ openLoop osa (checkLoop osa specs).1
          ++ [Event.printLine
              "\n✓ Workflow complete! All applications opened and maximized."]
    ∧ checkRequests (checkLoop osa specs).2 = specs.map Prod.fst
    ∧ activateRequests (checkLoop osa specs).2 = []
    ∧ maximizeRequests (checkLoop osa specs).2 = []
    ∧ checkRequests (openLoop osa (checkLoop osa specs).1) = [] :=
  ⟨rfl, checkLoop_checkRequests osa specs,
    filterMap_activateName_checkLoop osa specs,
    filterMap_maximizeName_checkLoop osa specs,
    filterMap_checkName_openLoop osa (checkLoop osa specs).1⟩

/-- C10: get_running_gui_apps returns the empty list when the
enumeration script fails and also when it succeeds with empty
(stripped) output; on non-empty output it returns the comma-separated
tokens, each stripped, in output order, so one application name
containing a comma comes back as several entries. -/
theorem get_running_parses_comma_separated :
    (∀ osa e, osa Script.listRunningApps = Except.error e →
      (get_running_gui_apps osa).1 = [])
    ∧ (∀ osa out, osa Script.listRunningApps = Except.ok out →
        pyStrip out = "" → (get_running_gui_apps osa).1 = [])
    ∧ (∀ osa out, osa Script.listRunningApps = Except.ok out →
        pyStrip out ≠ "" →
        (get_running_gui_apps osa).1 = (pySplit ',' (pyStrip out)).map pyStrip)
    ∧ (get_running_gui_apps osaCommaName).1 = ["Adobe Photoshop", "Version 2024"] := by
  refine ⟨?_, ?_, ?_, by decide⟩
  · intro osa e h
    simp [get_running_gui_apps, run_applescript, h]
  · intro osa out h h0
    simp [get_running_gui_apps, run_applescript, h, h0]
  · intro osa out h h0
    simp [get_running_gui_apps, run_applescript, h, h0]

/-- Witness for C10: the three conditional parts applied at concrete
oracles (every script fails; every script prints nothing; the
enumeration prints one application name containing a comma). -/
theorem get_running_parses_comma_separated_witness :
    (get_running_gui_apps osaListFail).1 = []
    ∧ (get_running_gui_apps osaListEmpty).1 = []
    ∧ (get_running_gui_apps osaCommaName).1
        = (pySplit ',' (pyStrip "Adobe Photoshop, Version 2024")).map pyStrip := by
  obtain ⟨h1, h2, h3, _⟩ := get_running_parses_comma_separated
  exact ⟨h1 osaListFail "System Events error" rfl,
    h2 osaListEmpty "" rfl (by decide),
    h3 osaCommaName "Adobe Photoshop, Version 2024" rfl (by decide)⟩

/-- C1, behavior of the code at the claim's distinguished input: when
the existence-check script prints the text "not found" (the branch the
generated script takes for an application that is not installed), the
Python test result and "found" in result still succeeds, because
"found" is a substring of "not found".  The spec is treated as
installed: the found line is logged, the skipping line is not, and one
activate and one maximize script are issued for it. -/
theorem check_treats_not_found_as_found :
    (checkLoop osaCheckNotFound [("Google Chrome", "Google Chrome")]).1
        = [("Google Chrome", "Google Chrome")]
    ∧ Event.logSuccess "Google Chrome found"
        ∈ open_and_maximize_apps osaCheckNotFound [("Google Chrome", "Google Chrome")]
    ∧ Event.logError "Google Chrome not found (skipping)"
        ∉ open_and_maximize_apps osaCheckNotFound [("Google Chrome", "Google Chrome")]
    ∧ activateRequests (open_and_maximize_apps osaCheckNotFound
        [("Google Chrome", "Google Chrome")]) = ["Google Chrome"]
    ∧ maximizeRequests (open_and_maximize_apps osaCheckNotFound
        [("Google Chrome", "Google Chrome")]) = ["Google Chrome"]
    ∧ pyContains "not found" "found" = true := by decide

/-- C8: with the default configuration (three countdown seconds), on
the enumerated list Chrome, Terminal, Notes with Terminal excluded,
the full trace of close_all_gui_apps: the quit list is Chrome, Notes;
the countdown prints exactly one line per second, in the order 3...,
2..., 1...; and the two quit requests are issued, in that order, after
the countdown. -/
theorem close_all_default_countdown_scenario :
    close_all_gui_apps osaChromeNotes none (some ["Terminal"])
      = ([Event.printLine "Getting list of running GUI applications...",
          Event.runScript Script.listRunningApps,
          Event.printLine "\nFound 2 applications to close:",
          Event.logInfo "- Chrome",
          Event.logInfo "- Notes",
          Event.printLine "\nStarting countdown: 3 seconds to cancel (Ctrl+C)...",
          Event.printLine "3...",
          Event.sleepMs 1000,
          Event.printLine "2...",
          Event.sleepMs 1000,
          Event.printLine "1...",
          Event.sleepMs 1000,
          Event.printLine "\nClosing applications...",
          Event.runScript (Script.quitApp "Chrome"),
          Event.logSuccess "Closed Chrome",
          Event.sleepMs 200,
          Event.runScript (Script.quitApp "Notes"),
          Event.logSuccess "Closed Notes",
          Event.sleepMs 200,
          Event.sleepMs 1000,
          Event.printLine "\nAll applications closed."], false)
    ∧ COUNTDOWN_SECONDS = 3
    ∧ quitRequests (close_all_gui_apps osaChromeNotes none (some ["Terminal"])).1
        = ["Chrome", "Notes"] := by decide
